import Mathlib

/-!
Verification development for the TenHummingbirds browser-automation core:
a shallow embedding of the Browser Session Controller (`HummBrowser`) and
the Task Orchestrator (`TenHummingbirdsAgent`) from the repository source,
together with theorems settling the specification claims.

External collaborators (the headless-browser engine, the language-model
gateway, the image-synthesis gateway and the system clock) are modelled
as an explicit environment `Env` of oracles: each oracle field describes
the outcome the external system produces for the corresponding call, so
every definition here is a deterministic function of the environment.
Thrown JavaScript exceptions are modelled as `Except String`; a caught
exception is the `.error` branch of a `match`.
-/

/-- Image dimensions, as in the `dimensions` objects of the source. -/
structure Dimensions where
  width : Nat
  height : Nat
deriving DecidableEq

/-- Embedding of `ImageGenerationRequest` (ai-image-generator module).
The `data` field of the source (an arbitrary record) is modelled by
presence only (`hasData`); `guidance` is the literal 7.5 of the source. -/
structure ImageGenerationRequest where
  prompt : String
  type : String
  style : String
  dimensions : Dimensions
  hasData : Bool
  steps : Nat
  guidance : ℚ
deriving DecidableEq

/-- Embedding of `ImageGenerationResult` returned by the image-synthesis
gateway (`tenHummingbirdsImageGenerator.generateImage`), which is consumed
as an external capability. -/
structure ImageGenResult where
  success : Bool
  imageUrl : Option String
  imageBase64 : Option String
  prompt : String
  model : String
  generationTime : Nat
  error : Option String
deriving DecidableEq

/-- Language-model gateway answer: the `text` and `confidence` fields of
`ConversationalResponse` that the orchestrator reads. -/
structure GenResponse where
  text : String
  confidence : Nat
deriving DecidableEq

/-- Shape extracted by `JSON.parse` from the image-analysis answer in
`performImageGeneration`.  Each field is optional: `none` models a missing
or falsy field (the source reads them with `||` fallbacks). -/
structure ImageAnalysis where
  imageType : Option String
  style : Option String
  optimizedPrompt : Option String
  dimensions : Option Dimensions
deriving DecidableEq

/-- The `streamData` record of `HummObservation`. -/
structure StreamData where
  isStreaming : Bool
  frameRate : Nat
  quality : Nat
deriving DecidableEq

/-- The `viewport` record of `HummObservation`. -/
structure Viewport where
  width : Nat
  height : Nat
  deviceScaleFactor : Nat
deriving DecidableEq

/-- The `data` payload attached to observations.  Each constructor mirrors
one of the object literals the source stores in `data`. -/
inductive ObsData where
  | navigated
  | clicked (selector : String)
  | inputted (text selector : String)
  | extractedElem (content : String)
  | extractedPage (title text html url : String)
  | scrolled (direction : String) (pixels : Int)
  | screenshotTaken
  | elementFound (selector : String)
  | streamingStarted
  | streamingStopped
  | viewportInfo (url title : String)
  | aiAnalysisStep (analysisText : String) (request : ImageGenerationRequest)
  | imageGenStep (imageGenerated : Bool) (model : String) (generationTime : Nat)
deriving DecidableEq

/-- Embedding of `HummObservation`. -/
structure HummObservation where
  success : Bool
  data : Option ObsData := none
  screenshot : Option String := none
  pageTitle : Option String := none
  url : Option String := none
  content : Option String := none
  error : Option String := none
  timestamp : Nat
  viewport : Option Viewport := none
  streamData : Option StreamData := none
deriving DecidableEq

/-- State of the `HummBrowser` instance.  The playwright handles are
modelled by presence (`page`); `activeTimers` models the set of interval
timers currently registered with the runtime (`setInterval` adds one,
`clearInterval` removes one), and `nextTimer` the next fresh timer id. -/
structure Browser where
  isInitialized : Bool := false
  page : Bool := false
  isStreaming : Bool := false
  streamInterval : Option Nat := none
  streamCallbackSet : Bool := false
  activeTimers : List Nat := []
  nextTimer : Nat := 0
deriving DecidableEq

/-- The `action` discriminant of `HummCommand`. -/
inductive HummAction where
  | navigate
  | click
  | input
  | extract
  | scroll
  | screenshot
  | wait
  | stream_start
  | stream_stop
  | get_viewport
deriving DecidableEq

/-- The fields of `command.options` read by `HummBrowser.scroll`
(destructured with defaults `direction = 'down'`, `pixels = 500`). -/
structure ScrollOptions where
  direction : Option String := none
  pixels : Option Int := none
  toElement : Option String := none
deriving DecidableEq

/-- Embedding of `HummCommand`.  The untyped `options` record of the source
is split into the typed fields each command actually reads. -/
structure HummCommand where
  action : HummAction
  url : Option String := none
  selector : Option String := none
  text : Option String := none
  scrollOptions : ScrollOptions := {}
  timeout : Option Nat := none
  frameRate : Option Nat := none
  hasCallback : Bool := false
deriving DecidableEq

/-- Environment of external oracles: outcomes of engine calls, gateway
calls and clock reads.  An `Option String` field of `some m` means the
underlying call throws with message `m`; `none` means it succeeds. -/
structure Env where
  now : Nat
  automationDisabled : Bool
  launchFails : Option String
  gotoFails : Option String
  pageTitle : String
  pageUrl : String
  clickFails : Option String
  fillFails : Option String
  elemFound : Bool
  elemText : String
  contentFails : Option String
  extractedTitle : String
  extractedText : String
  extractedHtml : String
  scrollFails : Option String
  screenshotFails : Option String
  screenshotB64 : String
  waitFails : Option String
  viewportSize : Option (Nat × Nat)
  titleFails : Option String
  gateway : String → Except String GenResponse
  parseImageAnalysis : String → Option ImageAnalysis
  imageGen : ImageGenerationRequest → ImageGenResult

/-- Embedding of `HummBrowser.initialize`: fails when the administrative
switch is set or the engine launch chain fails (the source catch logs and
rethrows the launch error unchanged); otherwise creates the Session. -/
def initSession (env : Env) (b : Browser) : Except String Browser :=
  if env.automationDisabled then
    .error "Browser automation is disabled in production"
  else
    match env.launchFails with
    | some m => .error m
    | none => .ok { b with isInitialized := true, page := true }

/-- Embedding of `HummBrowser.navigate`. -/
def navigate (env : Env) (b : Browser) (url : Option String) :
    Except String HummObservation :=
  if !b.page then .error "Page not initialized"
  else
    match url, env.gotoFails with
    | _, some m => .error ("Navigation failed: " ++ m)
    | _, none =>
        .ok { success := true, pageTitle := some env.pageTitle,
              url := some env.pageUrl, data := some .navigated,
              timestamp := env.now }

/-- Embedding of `HummBrowser.click`. -/
def click (env : Env) (b : Browser) (selector : Option String) :
    Except String HummObservation :=
  if !b.page then .error "Page not initialized"
  else
    let sel := selector.getD "undefined"
    match env.clickFails with
    | some m => .error ("Click failed on " ++ sel ++ ": " ++ m)
    | none =>
        .ok { success := true, data := some (.clicked sel),
              url := some env.pageUrl, timestamp := env.now }

/-- Embedding of `HummBrowser.input`. -/
def input (env : Env) (b : Browser) (selector text : Option String) :
    Except String HummObservation :=
  if !b.page then .error "Page not initialized"
  else
    let sel := selector.getD "undefined"
    match env.fillFails with
    | some m => .error ("Input failed on " ++ sel ++ ": " ++ m)
    | none =>
        .ok { success := true,
              data := some (.inputted (text.getD "undefined") sel),
              timestamp := env.now }

/-- Rendering of the whole-page extraction record, modelling the
`JSON.stringify(content)` the source stores in `observation.content`. -/
def pageJson (title text html url : String) : String :=
  "\x7b\"title\":\"" ++ title ++ "\",\"text\":\"" ++ text ++
    "\",\"html\":\"" ++ html ++ "\",\"url\":\"" ++ url ++ "\"\x7d"

/-- Embedding of `HummBrowser.extractContent`: selector-scoped element
text, or whole-page content cleaned by the content extractor (the
cleaning itself is external; `env.extractedText` is its output). -/
def extractContent (env : Env) (b : Browser) (selector : Option String) :
    Except String HummObservation :=
  if !b.page then .error "Page not initialized"
  else
    match selector with
    | some sel =>
        if env.elemFound then
          .ok { success := true, content := some env.elemText,
                data := some (.extractedElem env.elemText),
                timestamp := env.now }
        else
          .error ("Content extraction failed: Element not found: " ++ sel)
    | none =>
        match env.contentFails with
        | some m => .error ("Content extraction failed: " ++ m)
        | none =>
            .ok { success := true,
                  content := some (pageJson env.extractedTitle
                    env.extractedText env.extractedHtml env.pageUrl),
                  data := some (.extractedPage env.extractedTitle
                    env.extractedText env.extractedHtml env.pageUrl),
                  timestamp := env.now }

/-- The page-level effect a scroll command performs: either an
element-into-view scroll or a `window.scrollBy(0, delta)`. -/
inductive ScrollAction where
  | intoView (selector : String)
  | byPixels (delta : Int)
deriving DecidableEq

/-- The signed scroll delta of the source:
`direction === 'down' ? pixels : -pixels` with defaults applied. -/
def scrollDelta (opts : ScrollOptions) : Int :=
  if opts.direction.getD "down" = "down" then opts.pixels.getD 500
  else -(opts.pixels.getD 500)

/-- The scroll effect chosen by `HummBrowser.scroll`: into-view when a
target element is given, otherwise a by-pixels scroll. -/
def scrollAction (opts : ScrollOptions) : ScrollAction :=
  match opts.toElement with
  | some sel => .intoView sel
  | none => .byPixels (scrollDelta opts)

/-- Embedding of `HummBrowser.scroll`; returns the performed page effect
together with the observation. -/
def scroll (env : Env) (b : Browser) (opts : ScrollOptions) :
    Except String (ScrollAction × HummObservation) :=
  if !b.page then .error "Page not initialized"
  else
    match env.scrollFails with
    | some m => .error ("Scroll failed: " ++ m)
    | none =>
        .ok (scrollAction opts,
          { success := true,
            data := some (.scrolled (opts.direction.getD "down")
              (opts.pixels.getD 500)),
            timestamp := env.now })

/-- Embedding of `HummBrowser.takeScreenshot`. -/
def takeScreenshot (env : Env) (b : Browser) : Except String HummObservation :=
  if !b.page then .error "Page not initialized"
  else
    match env.screenshotFails with
    | some m => .error ("Screenshot failed: " ++ m)
    | none =>
        .ok { success := true,
              screenshot := some ("data:image/png;base64," ++ env.screenshotB64),
              data := some .screenshotTaken, timestamp := env.now }

/-- Embedding of `HummBrowser.waitForElement`. -/
def waitForElement (env : Env) (b : Browser) (selector : Option String)
    (timeout : Nat) : Except String HummObservation :=
  if !b.page then .error "Page not initialized"
  else
    let sel := selector.getD "undefined"
    match timeout, env.waitFails with
    | _, some m => .error ("Wait failed for " ++ sel ++ ": " ++ m)
    | _, none =>
        .ok { success := true, data := some (.elementFound sel),
              timestamp := env.now }

/-- Embedding of `HummBrowser.startStreaming`: records the callback, sets
the streaming flag and registers a fresh interval timer.  Note the source
does not cancel a previously registered timer: the old handle is simply
overwritten, so the old timer stays in `activeTimers`. -/
def startStreaming (env : Env) (b : Browser) (hasCb : Bool)
    (frameRate : Nat) : Except String (HummObservation × Browser) :=
  if !b.page then .error "Page not initialized"
  else
    let id := b.nextTimer
    .ok ({ success := true,
           streamData := some { isStreaming := true, frameRate := frameRate, quality := 60 },
           data := some .streamingStarted, timestamp := env.now },
         { b with streamCallbackSet := hasCb, isStreaming := true,
                  streamInterval := some id,
                  activeTimers := id :: b.activeTimers,
                  nextTimer := id + 1 })

/-- Embedding of `HummBrowser.stopStreaming`: clears the streaming flag,
cancels the registered interval (if any) and drops the callback.  Never
fails (nothing in its body throws). -/
def stopStreaming (env : Env) (b : Browser) : HummObservation × Browser :=
  ({ success := true,
     streamData := some { isStreaming := false, frameRate := 0, quality := 0 },
     data := some .streamingStopped, timestamp := env.now },
   { b with isStreaming := false,
            activeTimers :=
              match b.streamInterval with
              | some id => b.activeTimers.erase id
              | none => b.activeTimers,
            streamInterval := none, streamCallbackSet := false })

/-- Embedding of `HummBrowser.getViewportInfo`. -/
def getViewportInfo (env : Env) (b : Browser) : Except String HummObservation :=
  if !b.page then .error "Page not initialized"
  else
    match env.titleFails with
    | some m => .error ("Failed to get viewport info: " ++ m)
    | none =>
        .ok { success := true, pageTitle := some env.pageTitle,
              url := some env.pageUrl,
              viewport := env.viewportSize.map
                (fun p => { width := p.1, height := p.2, deviceScaleFactor := 1 }),
              data := some (.viewportInfo env.pageUrl env.pageTitle),
              timestamp := env.now }

/-- The command dispatch inside the `try` of `HummBrowser.executeCommand`:
routes the command to the private method for its action. -/
def dispatch (env : Env) (b : Browser) (cmd : HummCommand) :
    Except String (HummObservation × Browser) :=
  match cmd.action with
  | .navigate => (navigate env b cmd.url).map (fun o => (o, b))
  | .click => (click env b cmd.selector).map (fun o => (o, b))
  | .input => (input env b cmd.selector cmd.text).map (fun o => (o, b))
  | .extract => (extractContent env b cmd.selector).map (fun o => (o, b))
  | .scroll => (scroll env b cmd.scrollOptions).map (fun p => (p.2, b))
  | .screenshot => (takeScreenshot env b).map (fun o => (o, b))
  | .wait =>
      (waitForElement env b cmd.selector (cmd.timeout.getD 10000)).map
        (fun o => (o, b))
  | .stream_start => startStreaming env b cmd.hasCallback (cmd.frameRate.getD 2)
  | .stream_stop => .ok (stopStreaming env b)
  | .get_viewport => (getViewportInfo env b).map (fun o => (o, b))

/-- Embedding of `HummBrowser.executeCommand`.  The implicit lazy
initialization happens before the `try` block, so an initialization
failure propagates as an exception; every failure inside the dispatch is
caught and converted into a failed observation stamped with the start
time. -/
def executeCommand (env : Env) (b : Browser) (cmd : HummCommand) :
    Except String (HummObservation × Browser) :=
  match (if !b.isInitialized || !b.page then initSession env b else .ok b) with
  | .error e => .error e
  | .ok b1 =>
      match dispatch env b1 cmd with
      | .ok p => .ok p
      | .error e =>
          .ok ({ success := false, error := some e, timestamp := env.now }, b1)

/-- Task types of `AgentTask.type`.  The source's union includes
`automation`, for which `executeTask` has no switch case: it falls into
the `default` branch and throws an unknown-task-type error, so it plays
the role of the unknown type. -/
inductive TaskType where
  | research
  | scrape
  | monitor
  | navigation
  | automation
  | live_demo
  | generate_image
deriving DecidableEq

/-- String form of the task type used in the unknown-task-type message. -/
def TaskType.render : TaskType → String
  | .research => "research"
  | .scrape => "scrape"
  | .monitor => "monitor"
  | .navigation => "navigate"
  | .automation => "automation"
  | .live_demo => "live_demo"
  | .generate_image => "generate_image"

/-- Embedding of `AgentTask`.  The untyped `parameters` record is
modelled by presence only. -/
structure AgentTask where
  id : String
  type : TaskType
  description : String
  userQuery : String
  targetUrl : Option String := none
  selector : Option String := none
  hasParameters : Bool := false
  enableLiveView : Bool := false
deriving DecidableEq

/-- Embedding of `AgentState` (without the browser, which the source
keeps in the separate `hummBrowser` singleton). -/
structure AgentState where
  isActive : Bool
  currentTask : Option AgentTask
  browserReady : Bool
  lastActivity : Nat
  isLiveStreaming : Bool
  currentUrl : Option String
deriving DecidableEq

/-- The complete mutable state the orchestrator code touches: its own
`AgentState` plus the `hummBrowser` singleton. -/
structure World where
  agent : AgentState
  browser : Browser
deriving DecidableEq

/-- Result records returned by the six task handlers, one constructor per
handler return shape. -/
inductive ResultData where
  | research (url : String) (pageTitle : Option String)
      (extractedContent : Option ObsData) (aiAnalysis : String) (confidence : Nat)
  | scrapeSelector (url selector : String) (d : Option ObsData)
  | scrapeFull (url : String) (fullContent : Option ObsData)
  | navigation (url : String) (pageTitle : Option String)
      (screenshot : Option String) (navigationSuccess : Bool)
  | monitor (url : String) (monitoredData : Option ObsData) (timestamp : Nat)
  | image (imageBase64 imageUrl : Option String) (prompt originalQuery : String)
      (model : String) (generationTime : Nat) (type style : String)
  | liveDemo (url : String) (pageTitle : Option String)
      (screenshot : Option String) (viewport : Option Viewport)
      (liveStreamActive navigationSuccess : Bool)
deriving DecidableEq

/-- Rendering of a result record, modelling `JSON.stringify(result)` in
the summary prompt (an abstract serialization: only its presence in the
prompt matters to the orchestrator). -/
def ResultData.render : ResultData → String
  | .research url _ _ ai c => "research " ++ url ++ " " ++ ai ++ " " ++ toString c
  | .scrapeSelector url sel _ => "scrape " ++ url ++ " " ++ sel
  | .scrapeFull url _ => "scrape " ++ url
  | .navigation url _ _ ok => "navigate " ++ url ++ " " ++ toString ok
  | .monitor url _ t => "monitor " ++ url ++ " " ++ toString t
  | .image _ _ p _ m t _ _ => "image " ++ p ++ " " ++ m ++ " " ++ toString t
  | .liveDemo url _ _ _ live ok =>
      "liveDemo " ++ url ++ " " ++ toString live ++ " " ++ toString ok

/-- Rendering of an observation payload, modelling `JSON.stringify(obs.data)`
in the summary prompt. -/
def ObsData.render : ObsData → String
  | .navigated => "navigated"
  | .clicked s => "clicked " ++ s
  | .inputted t s => "inputted " ++ t ++ " " ++ s
  | .extractedElem c => "extractedElem " ++ c
  | .extractedPage t x h u => "extractedPage " ++ pageJson t x h u
  | .scrolled d p => "scrolled " ++ d ++ " " ++ toString p
  | .screenshotTaken => "screenshotTaken"
  | .elementFound s => "elementFound " ++ s
  | .streamingStarted => "streamingStarted"
  | .streamingStopped => "streamingStopped"
  | .viewportInfo u t => "viewportInfo " ++ u ++ " " ++ t
  | .aiAnalysisStep a r => "aiAnalysisStep " ++ a ++ " " ++ r.prompt
  | .imageGenStep ok m t => "imageGenStep " ++ toString ok ++ " " ++ m ++ " " ++ toString t

/-- Embedding of `AgentResult`. -/
structure AgentResult where
  taskId : String
  success : Bool
  data : Option ResultData := none
  observations : List HummObservation
  summary : String
  timestamp : Nat
  executionTime : Nat
deriving DecidableEq

/-- Outcome of one task-handler run: the observation list accumulated so
far (the source appends to a shared array that survives a throw), the
mutated world, and either the handler's result record or the thrown
error. -/
structure HandlerOut where
  observations : List HummObservation
  world : World
  result : Except String ResultData

/-- Leading segment of a research-response token that forms the URL match
of the source's URL regex: the maximal run of non-whitespace characters. -/
def takeUrlToken (cs : List Char) : List Char :=
  cs.takeWhile (fun c => !c.isWhitespace)

/-- Scan for the first position where an `http://` or `https://` URL
starts, mirroring the regex match of `extractUrlFromResponse`. -/
def findUrlAux : List Char → Option (List Char)
  | [] => none
  | c :: rest =>
      if "http://".toList.isPrefixOf (c :: rest)
          || "https://".toList.isPrefixOf (c :: rest) then
        some (takeUrlToken (c :: rest))
      else
        findUrlAux rest

/-- Substring test on character lists, modelling `String.includes`. -/
def containsSub (needle : List Char) : List Char → Bool
  | [] => needle.isEmpty
  | c :: rest => needle.isPrefixOf (c :: rest) || containsSub needle rest

/-- Embedding of `TenHummingbirdsAgent.extractUrlFromResponse`: first URL
in the response, else finance/stock-keyed fallback table, else a generic
search engine. -/
def extractUrlFromResponse (response : String) : String :=
  match findUrlAux response.toList with
  | some cs => String.mk cs
  | none =>
      let lower := response.toLower
      if containsSub "finance".toList lower.toList
          || containsSub "stock".toList lower.toList then
        "https://finance.yahoo.com"
      else
        "https://google.com"

/-- Strategy prompt of `performResearch` when no target URL is given. -/
def researchStrategyPrompt (userQuery : String) : String :=
  "What is the best website to research: " ++ userQuery ++ "? Return just the URL."

/-- Analysis prompt of `performResearch`. -/
def researchAnalysisPrompt (userQuery content : String) : String :=
  "User Query: " ++ userQuery ++ " Extracted Content: " ++ content ++
    " Please analyze this content and provide relevant insights for the user's query. Focus on trading and financial information if applicable."

/-- Analysis prompt of `performImageGeneration`. -/
def imageAnalysisPrompt (task : AgentTask) : String :=
  "Analyze this image generation request and create an optimized prompt: User Query: " ++
    task.userQuery ++ " Description: " ++ task.description

/-- JavaScript `a || b` on an optional string field: falls back on a
missing field and on the empty string (both are falsy). -/
def jsOrStr (v : Option String) (d : String) : String :=
  match v with
  | some s => if s = "" then d else s
  | none => d

/-- The image request built by `performImageGeneration` from the parsed
analysis answer, or from the fallback default spec when parsing failed
(`none`): raw user query as prompt, creative type, professional style,
1024 by 1024, step count 20 instead of 25. -/
def buildImageRequest (parsed : Option ImageAnalysis) (task : AgentTask) :
    ImageGenerationRequest :=
  match parsed with
  | some a =>
      { prompt := jsOrStr a.optimizedPrompt task.userQuery,
        type := jsOrStr a.imageType "creative",
        style := jsOrStr a.style "professional",
        dimensions := a.dimensions.getD { width := 1024, height := 1024 },
        hasData := task.hasParameters,
        steps := 25, guidance := 7.5 }
  | none =>
      { prompt := task.userQuery,
        type := "creative",
        style := "professional",
        dimensions := { width := 1024, height := 1024 },
        hasData := false,
        steps := 20, guidance := 7.5 }

/-- Embedding of `TenHummingbirdsAgent.performResearch`. -/
def performResearch (env : Env) (task : AgentTask) (w : World) : HandlerOut :=
  let urlE : Except String String :=
    match task.targetUrl with
    | some u => .ok u
    | none =>
        match env.gateway (researchStrategyPrompt task.userQuery) with
        | .ok r => .ok (extractUrlFromResponse r.text)
        | .error e => .error e
  match urlE with
  | .error e => { observations := [], world := w, result := .error e }
  | .ok url =>
      match executeCommand env w.browser { action := .navigate, url := some url } with
      | .error e => { observations := [], world := w, result := .error e }
      | .ok (navResult, b1) =>
          let w1 : World := { w with browser := b1 }
          if !navResult.success then
            { observations := [navResult], world := w1,
              result := .error ("Failed to navigate to " ++ url) }
          else
            match executeCommand env b1 { action := .extract } with
            | .error e =>
                { observations := [navResult], world := w1, result := .error e }
            | .ok (extractResult, b2) =>
                let w2 : World := { w1 with browser := b2 }
                if !extractResult.success then
                  { observations := [navResult, extractResult], world := w2,
                    result := .error "Failed to extract page content" }
                else
                  match env.gateway (researchAnalysisPrompt task.userQuery
                      (extractResult.content.getD "undefined")) with
                  | .error e =>
                      { observations := [navResult, extractResult], world := w2,
                        result := .error e }
                  | .ok ai =>
                      { observations := [navResult, extractResult], world := w2,
                        result := .ok (.research url navResult.pageTitle
                          extractResult.data ai.text ai.confidence) }

/-- Embedding of `TenHummingbirdsAgent.performScraping`.  Note the
handler never inspects `observation.success`. -/
def performScraping (env : Env) (task : AgentTask) (w : World) : HandlerOut :=
  match task.targetUrl with
  | none =>
      { observations := [], world := w,
        result := .error "Target URL required for scraping task" }
  | some url =>
      match executeCommand env w.browser { action := .navigate, url := some url } with
      | .error e => { observations := [], world := w, result := .error e }
      | .ok (navResult, b1) =>
          let w1 : World := { w with browser := b1 }
          match task.selector with
          | some sel =>
              match executeCommand env b1 { action := .extract, selector := some sel } with
              | .error e =>
                  { observations := [navResult], world := w1, result := .error e }
              | .ok (extractResult, b2) =>
                  { observations := [navResult, extractResult],
                    world := { w1 with browser := b2 },
                    result := .ok (.scrapeSelector url sel extractResult.data) }
          | none =>
              match executeCommand env b1 { action := .extract } with
              | .error e =>
                  { observations := [navResult], world := w1, result := .error e }
              | .ok (extractResult, b2) =>
                  { observations := [navResult, extractResult],
                    world := { w1 with browser := b2 },
                    result := .ok (.scrapeFull url extractResult.data) }

/-- Embedding of `TenHummingbirdsAgent.performNavigation`. -/
def performNavigation (env : Env) (task : AgentTask) (w : World) : HandlerOut :=
  match task.targetUrl with
  | none =>
      { observations := [], world := w,
        result := .error "Target URL required for navigation task" }
  | some url =>
      match executeCommand env w.browser { action := .navigate, url := some url } with
      | .error e => { observations := [], world := w, result := .error e }
      | .ok (navResult, b1) =>
          match executeCommand env b1 { action := .screenshot } with
          | .error e =>
              { observations := [navResult], world := { w with browser := b1 },
                result := .error e }
          | .ok (screenshotResult, b2) =>
              { observations := [navResult, screenshotResult],
                world := { w with browser := b2 },
                result := .ok (.navigation url navResult.pageTitle
                  screenshotResult.screenshot navResult.success) }

/-- Embedding of `TenHummingbirdsAgent.performMonitoring` (single-shot
check: navigate, then selector-scoped extract). -/
def performMonitoring (env : Env) (task : AgentTask) (w : World) : HandlerOut :=
  match task.targetUrl with
  | none =>
      { observations := [], world := w,
        result := .error "Target URL required for monitoring task" }
  | some url =>
      match executeCommand env w.browser { action := .navigate, url := some url } with
      | .error e => { observations := [], world := w, result := .error e }
      | .ok (navResult, b1) =>
          match executeCommand env b1 { action := .extract, selector := task.selector } with
          | .error e =>
              { observations := [navResult], world := { w with browser := b1 },
                result := .error e }
          | .ok (extractResult, b2) =>
              { observations := [navResult, extractResult],
                world := { w with browser := b2 },
                result := .ok (.monitor url extractResult.data env.now) }

/-- Embedding of `TenHummingbirdsAgent.performImageGeneration`: gateway
analysis, best-effort JSON-shape parse with silent fallback to the
default spec, one observation per step, and a task-level failure only
when the image gateway itself reports failure. -/
def performImageGeneration (env : Env) (task : AgentTask) (w : World) : HandlerOut :=
  match env.gateway (imageAnalysisPrompt task) with
  | .error e => { observations := [], world := w, result := .error e }
  | .ok aiAnalysis =>
      let imageRequest := buildImageRequest (env.parseImageAnalysis aiAnalysis.text) task
      let analysisObs : HummObservation :=
        { success := true,
          data := some (.aiAnalysisStep aiAnalysis.text imageRequest),
          timestamp := env.now }
      let imageResult := env.imageGen imageRequest
      let imageObs : HummObservation :=
        { success := imageResult.success,
          data := some (.imageGenStep imageResult.success imageResult.model
            imageResult.generationTime),
          error := imageResult.error, timestamp := env.now }
      if !imageResult.success then
        { observations := [analysisObs, imageObs], world := w,
          result := .error ("Image generation failed: " ++
            imageResult.error.getD "undefined") }
      else
        { observations := [analysisObs, imageObs], world := w,
          result := .ok (.image imageResult.imageBase64 imageResult.imageUrl
            imageResult.prompt task.userQuery imageResult.model
            imageResult.generationTime imageRequest.type imageRequest.style) }

/-- The `catch` block of `performLiveDemo`: if the orchestrator believes a
live stream is running it issues a StreamStop command and clears the flag
before rethrowing; a failure of the StreamStop command itself replaces
the original error and leaves the flag set. -/
def liveDemoFail (env : Env) (obs : List HummObservation) (w : World)
    (e : String) : HandlerOut :=
  if w.agent.isLiveStreaming then
    match executeCommand env w.browser { action := .stream_stop } with
    | .error e2 => { observations := obs, world := w, result := .error e2 }
    | .ok (_, b1) =>
        { observations := obs,
          world := { agent := { w.agent with isLiveStreaming := false },
                     browser := b1 },
          result := .error e }
  else
    { observations := obs, world := w, result := .error e }

/-- Embedding of `TenHummingbirdsAgent.performLiveDemo`: optional stream
start, navigate, settle delay, viewport query, final screenshot, with the
catch block handling every failure inside the `try`.  The missing-URL
check sits before the `try`, so it bypasses the catch. -/
def performLiveDemo (env : Env) (task : AgentTask) (w : World) : HandlerOut :=
  match task.targetUrl with
  | none =>
      { observations := [], world := w,
        result := .error "Target URL required for live demo task" }
  | some url =>
      match (if task.enableLiveView then
               (executeCommand env w.browser
                   { action := .stream_start, frameRate := some 2 }).map
                 (fun p => ([p.1],
                   ({ agent := { w.agent with isLiveStreaming := true },
                      browser := p.2 } : World)))
             else .ok ([], w) :
             Except String (List HummObservation × World)) with
      | .error e => liveDemoFail env [] w e
      | .ok (obs0, w0) =>
          match executeCommand env w0.browser { action := .navigate, url := some url } with
          | .error e => liveDemoFail env obs0 w0 e
          | .ok (navResult, b1) =>
              let w1 : World :=
                { agent := { w0.agent with currentUrl := some url }, browser := b1 }
              let obs1 := obs0 ++ [navResult]
              if !navResult.success then
                liveDemoFail env obs1 w1 ("Failed to navigate to " ++ url)
              else
                match executeCommand env w1.browser { action := .get_viewport } with
                | .error e => liveDemoFail env obs1 w1 e
                | .ok (viewportResult, b2) =>
                    let w2 : World := { w1 with browser := b2 }
                    let obs2 := obs1 ++ [viewportResult]
                    match executeCommand env w2.browser { action := .screenshot } with
                    | .error e => liveDemoFail env obs2 w2 e
                    | .ok (screenshotResult, b3) =>
                        let w3 : World := { w2 with browser := b3 }
                        { observations := obs2 ++ [screenshotResult],
                          world := w3,
                          result := .ok (.liveDemo url navResult.pageTitle
                            screenshotResult.screenshot viewportResult.viewport
                            w3.agent.isLiveStreaming navResult.success) }

/-- One line of the execution-steps section of the summary prompt. -/
def obsLine (o : HummObservation) : String :=
  toString o.timestamp ++ ": " ++
    (match o.data with
     | some d => d.render
     | none => "No data")

/-- The execution-steps section of the summary prompt: only successful
observations are included (`filter(obs => obs.success)`). -/
def observationSummary (obs : List HummObservation) : String :=
  String.intercalate "\n" ((obs.filter (fun o => o.success)).map obsLine)

/-- The summary prompt of `generateTaskSummary`. -/
def summaryPrompt (task : AgentTask) (obs : List HummObservation)
    (result : ResultData) : String :=
  "Task: " ++ task.description ++ " User Query: " ++ task.userQuery ++
    " Execution Steps: " ++ observationSummary obs ++
    " Result: " ++ result.render ++
    " Please provide a concise, user-friendly summary of what was accomplished."

/-- Embedding of `TenHummingbirdsAgent.generateTaskSummary`: ask the
gateway for a summary; on failure substitute the deterministic template. -/
def generateTaskSummary (env : Env) (task : AgentTask)
    (obs : List HummObservation) (result : ResultData) : String :=
  match env.gateway (summaryPrompt task obs result) with
  | .ok r => r.text
  | .error _ =>
      "Task completed: " ++ task.description ++
        ". Check the detailed results for more information."

/-- The state mutation done at the top of `executeTask` before the
dispatch: record the current task and the activity time. -/
def taskStartWorld (env : Env) (task : AgentTask) (w : World) : World :=
  { w with agent :=
      { w.agent with currentTask := some task, lastActivity := env.now } }

/-- The `switch (task.type)` of `executeTask`: route to the handler, or
throw for a task type without a case (`automation`). -/
def executeTaskBody (env : Env) (task : AgentTask) (w : World) : HandlerOut :=
  match task.type with
  | .research => performResearch env task w
  | .scrape => performScraping env task w
  | .navigation => performNavigation env task w
  | .monitor => performMonitoring env task w
  | .live_demo => performLiveDemo env task w
  | .generate_image => performImageGeneration env task w
  | .automation =>
      { observations := [], world := w,
        result := .error ("Unknown task type: " ++ task.type.render) }

/-- Embedding of `TenHummingbirdsAgent.executeTask`: set the current
task, dispatch, build the success or failure `AgentResult` (the `catch`),
and clear `currentTask` on the way out (the `finally`).  All clock reads
are modelled as `env.now`, so the computed execution time is zero. -/
def executeTask (env : Env) (task : AgentTask) (w : World) :
    AgentResult × World :=
  let out := executeTaskBody env task (taskStartWorld env task w)
  let wFinal : World :=
    { out.world with agent := { out.world.agent with currentTask := none } }
  match out.result with
  | .ok resultData =>
      ({ taskId := task.id, success := true, data := some resultData,
         observations := out.observations,
         summary := generateTaskSummary env task out.observations resultData,
         timestamp := env.now, executionTime := env.now - env.now }, wFinal)
  | .error e =>
      ({ taskId := task.id, success := false,
         observations := out.observations,
         summary := "Task failed: " ++ e,
         timestamp := env.now, executionTime := env.now - env.now }, wFinal)

/-- Benign environment: every external call succeeds. -/
def baseEnv : Env :=
  { now := 0, automationDisabled := false, launchFails := none,
    gotoFails := none, pageTitle := "Example Title",
    pageUrl := "https://example.com",
    clickFails := none, fillFails := none, elemFound := true,
    elemText := "element text", contentFails := none,
    extractedTitle := "Example Title", extractedText := "body text",
    extractedHtml := "<p>body</p>", scrollFails := none,
    screenshotFails := none, screenshotB64 := "AAAA", waitFails := none,
    viewportSize := some (1366, 768), titleFails := none,
    gateway := fun _ => .ok { text := "answer", confidence := 90 },
    parseImageAnalysis := fun _ => none,
    imageGen := fun r =>
      { success := true, imageUrl := none, imageBase64 := some "img",
        prompt := r.prompt, model := "flux", generationTime := 1,
        error := none } }

/-- Browser with an initialized Session and no stream. -/
def initBrowser : Browser := { isInitialized := true, page := true }

/-- Agent state of a freshly initialized, idle orchestrator. -/
def baseAgent : AgentState :=
  { isActive := true, currentTask := none, browserReady := true,
    lastActivity := 0, isLiveStreaming := false, currentUrl := none }

/-- World of an initialized orchestrator over an initialized browser. -/
def baseWorld : World := { agent := baseAgent, browser := initBrowser }

/-- Browser with an already-active stream: timer 0 is registered and
recorded in `streamInterval`. -/
def c2Browser : Browser :=
  { isInitialized := true, page := true, isStreaming := true,
    streamInterval := some 0, streamCallbackSet := false,
    activeTimers := [0], nextTimer := 1 }

/-- Task with the `automation` type, for which `executeTask` has no case. -/
def c3Task : AgentTask :=
  { id := "t3", type := .automation, description := "auto", userQuery := "q" }

/-- Scrape task with no target URL. -/
def c4Task : AgentTask :=
  { id := "t4", type := .scrape, description := "scrape it", userQuery := "q" }

/-- Environment whose gateway answers with text that fails to parse as
the expected JSON shape. -/
def c5Env : Env :=
  { baseEnv with gateway := fun _ => .ok { text := "not json", confidence := 50 } }

/-- Image-generation task. -/
def c5Task : AgentTask :=
  { id := "t5", type := .generate_image, description := "logo",
    userQuery := "make a logo" }

/-- Environment where the viewport query fails (the page title read
throws) while everything else succeeds. -/
def c6Env : Env := { baseEnv with titleFails := some "page crashed" }

/-- Environment where navigation fails. -/
def navFailEnv : Env := { baseEnv with gotoFails := some "net::ERR_FAILED" }

/-- Live-demo task with live view enabled. -/
def c6Task : AgentTask :=
  { id := "t6", type := .live_demo, description := "demo", userQuery := "q",
    targetUrl := some "https://example.com", enableLiveView := true }

/-- Environment whose language-model gateway fails every call. -/
def c9FailEnv : Env :=
  { baseEnv with gateway := fun _ => .error "provider down" }

/-- Research task used for the summary-template check. -/
def c9Task : AgentTask :=
  { id := "t9", type := .research, description := "demo", userQuery := "q" }

/-- Scrape task with a target URL. -/
def c10Task : AgentTask :=
  { id := "t10", type := .scrape, description := "scrape it", userQuery := "q",
    targetUrl := some "https://example.com" }

/-- Environment where both navigation and whole-page extraction fail. -/
def c10FailEnv : Env :=
  { baseEnv with
      gotoFails := some "net::ERR_FAILED"
      contentFails := some "page closed" }

theorem append_length_pos (p s : String) (hp : 0 < p.length) :
    0 < (p ++ s).length := by
  rw [String.length_append]; omega

theorem append3_length_pos (p a q m : String) (hp : 0 < p.length) :
    0 < (p ++ a ++ q ++ m).length := by
  simp only [String.length_append]; omega

theorem except_map_error {α β γ : Type} (f : α → β) (x : Except γ α) (e : γ)
    (h : x.map f = .error e) : x = .error e := by
  cases x with
  | error e2 => simpa [Except.map] using h
  | ok a => simp [Except.map] at h

theorem navigate_error_pos (env : Env) (b : Browser) (url : Option String)
    (e : String) (h : navigate env b url = .error e) : 0 < e.length := by
  unfold navigate at h
  split at h
  · cases h; decide
  · split at h
    · cases h; exact append_length_pos _ _ (by decide)
    · cases h

theorem click_error_pos (env : Env) (b : Browser) (sel : Option String)
    (e : String) (h : click env b sel = .error e) : 0 < e.length := by
  unfold click at h
  split at h
  · cases h; decide
  · split at h
    · cases h; exact append3_length_pos _ _ _ _ (by decide)
    · cases h

theorem input_error_pos (env : Env) (b : Browser) (sel txt : Option String)
    (e : String) (h : input env b sel txt = .error e) : 0 < e.length := by
  unfold input at h
  split at h
  · cases h; decide
  · split at h
    · cases h; exact append3_length_pos _ _ _ _ (by decide)
    · cases h

theorem extractContent_error_pos (env : Env) (b : Browser)
    (sel : Option String) (e : String)
    (h : extractContent env b sel = .error e) : 0 < e.length := by
  unfold extractContent at h
  split at h
  · cases h; decide
  · split at h
    · split at h
      · cases h
      · cases h; exact append_length_pos _ _ (by decide)
    · split at h
      · cases h; exact append_length_pos _ _ (by decide)
      · cases h

theorem scroll_error_pos (env : Env) (b : Browser) (opts : ScrollOptions)
    (e : String) (h : scroll env b opts = .error e) : 0 < e.length := by
  unfold scroll at h
  split at h
  · cases h; decide
  · split at h
    · cases h; exact append_length_pos _ _ (by decide)
    · cases h

theorem takeScreenshot_error_pos (env : Env) (b : Browser) (e : String)
    (h : takeScreenshot env b = .error e) : 0 < e.length := by
  unfold takeScreenshot at h
  split at h
  · cases h; decide
  · split at h
    · cases h; exact append_length_pos _ _ (by decide)
    · cases h

theorem waitForElement_error_pos (env : Env) (b : Browser)
    (sel : Option String) (tmo : Nat) (e : String)
    (h : waitForElement env b sel tmo = .error e) : 0 < e.length := by
  unfold waitForElement at h
  split at h
  · cases h; decide
  · split at h
    · cases h; exact append3_length_pos _ _ _ _ (by decide)
    · cases h

theorem startStreaming_error_pos (env : Env) (b : Browser) (cb : Bool)
    (fr : Nat) (e : String) (h : startStreaming env b cb fr = .error e) :
    0 < e.length := by
  unfold startStreaming at h
  split at h
  · cases h; decide
  · cases h

theorem getViewportInfo_error_pos (env : Env) (b : Browser) (e : String)
    (h : getViewportInfo env b = .error e) : 0 < e.length := by
  unfold getViewportInfo at h
  split at h
  · cases h; decide
  · split at h
    · cases h; exact append_length_pos _ _ (by decide)
    · cases h

theorem dispatch_error_pos (env : Env) (b : Browser) (cmd : HummCommand)
    (e : String) (h : dispatch env b cmd = .error e) : 0 < e.length := by
  unfold dispatch at h
  cases hact : cmd.action <;> rw [hact] at h
  case navigate => exact navigate_error_pos env b cmd.url e (except_map_error _ _ _ h)
  case click => exact click_error_pos env b cmd.selector e (except_map_error _ _ _ h)
  case input => exact input_error_pos env b cmd.selector cmd.text e (except_map_error _ _ _ h)
  case extract => exact extractContent_error_pos env b cmd.selector e (except_map_error _ _ _ h)
  case scroll => exact scroll_error_pos env b cmd.scrollOptions e (except_map_error _ _ _ h)
  case screenshot => exact takeScreenshot_error_pos env b e (except_map_error _ _ _ h)
  case wait => exact waitForElement_error_pos env b cmd.selector (cmd.timeout.getD 10000) e (except_map_error _ _ _ h)
  case stream_start => exact startStreaming_error_pos env b cmd.hasCallback (cmd.frameRate.getD 2) e h
  case stream_stop => cases h
  case get_viewport => exact getViewportInfo_error_pos env b e (except_map_error _ _ _ h)

theorem executeCommand_initialized (env : Env) (b : Browser)
    (cmd : HummCommand) (hinit : b.isInitialized = true)
    (hpage : b.page = true) :
    executeCommand env b cmd =
      match dispatch env b cmd with
      | .ok p => .ok p
      | .error e =>
          .ok ({ success := false, error := some e, timestamp := env.now }, b) := by
  unfold executeCommand
  rw [hinit, hpage]
  rfl

theorem navigate_ok_props (env : Env) (b : Browser) (url : Option String)
    (obs : HummObservation) (h : navigate env b url = .ok obs) :
    obs.success = true ∧ obs.timestamp = env.now := by
  unfold navigate at h
  split at h
  · cases h
  · split at h
    · cases h
    · cases h; exact ⟨rfl, rfl⟩

theorem click_ok_props (env : Env) (b : Browser) (sel : Option String)
    (obs : HummObservation) (h : click env b sel = .ok obs) :
    obs.success = true ∧ obs.timestamp = env.now := by
  unfold click at h
  split at h
  · cases h
  · split at h
    · cases h
    · cases h; exact ⟨rfl, rfl⟩

theorem input_ok_props (env : Env) (b : Browser) (sel txt : Option String)
    (obs : HummObservation) (h : input env b sel txt = .ok obs) :
    obs.success = true ∧ obs.timestamp = env.now := by
  unfold input at h
  split at h
  · cases h
  · split at h
    · cases h
    · cases h; exact ⟨rfl, rfl⟩

theorem extractContent_ok_props (env : Env) (b : Browser)
    (sel : Option String) (obs : HummObservation)
    (h : extractContent env b sel = .ok obs) :
    obs.success = true ∧ obs.timestamp = env.now := by
  unfold extractContent at h
  split at h
  · cases h
  · split at h
    · split at h
      · cases h; exact ⟨rfl, rfl⟩
      · cases h
    · split at h
      · cases h
      · cases h; exact ⟨rfl, rfl⟩

theorem scroll_ok_props (env : Env) (b : Browser) (opts : ScrollOptions)
    (p : ScrollAction × HummObservation) (h : scroll env b opts = .ok p) :
    p.2.success = true ∧ p.2.timestamp = env.now := by
  unfold scroll at h
  split at h
  · cases h
  · split at h
    · cases h
    · cases h; exact ⟨rfl, rfl⟩

theorem takeScreenshot_ok_props (env : Env) (b : Browser)
    (obs : HummObservation) (h : takeScreenshot env b = .ok obs) :
    obs.success = true ∧ obs.timestamp = env.now := by
  unfold takeScreenshot at h
  split at h
  · cases h
  · split at h
    · cases h
    · cases h; exact ⟨rfl, rfl⟩

theorem waitForElement_ok_props (env : Env) (b : Browser)
    (sel : Option String) (tmo : Nat) (obs : HummObservation)
    (h : waitForElement env b sel tmo = .ok obs) :
    obs.success = true ∧ obs.timestamp = env.now := by
  unfold waitForElement at h
  split at h
  · cases h
  · split at h
    · cases h
    · cases h; exact ⟨rfl, rfl⟩

theorem startStreaming_ok_props (env : Env) (b : Browser) (cb : Bool)
    (fr : Nat) (obs : HummObservation) (b' : Browser)
    (h : startStreaming env b cb fr = .ok (obs, b')) :
    obs.success = true ∧ obs.timestamp = env.now ∧
      b'.isInitialized = b.isInitialized ∧ b'.page = b.page := by
  unfold startStreaming at h
  split at h
  · cases h
  · cases h; exact ⟨rfl, rfl, rfl, rfl⟩

theorem getViewportInfo_ok_props (env : Env) (b : Browser)
    (obs : HummObservation) (h : getViewportInfo env b = .ok obs) :
    obs.success = true ∧ obs.timestamp = env.now := by
  unfold getViewportInfo at h
  split at h
  · cases h
  · split at h
    · cases h
    · cases h; exact ⟨rfl, rfl⟩

theorem except_map_ok {α β γ : Type} (f : α → β) (x : Except γ α) (y : β)
    (h : x.map f = .ok y) : ∃ a, x = .ok a ∧ y = f a := by
  cases x with
  | error e2 => simp [Except.map] at h
  | ok a => refine ⟨a, rfl, ?_⟩; simpa [Except.map] using h.symm

theorem dispatch_ok_props (env : Env) (b : Browser) (cmd : HummCommand)
    (obs : HummObservation) (b' : Browser)
    (h : dispatch env b cmd = .ok (obs, b')) :
    obs.success = true ∧ obs.timestamp = env.now ∧
      b'.isInitialized = b.isInitialized ∧ b'.page = b.page := by
  unfold dispatch at h
  cases hact : cmd.action <;> rw [hact] at h
  case navigate =>
    obtain ⟨o, ho, he⟩ := except_map_ok _ _ _ h
    obtain ⟨h1, h2⟩ := navigate_ok_props env b cmd.url o ho
    cases he
    exact ⟨h1, h2, rfl, rfl⟩
  case click =>
    obtain ⟨o, ho, he⟩ := except_map_ok _ _ _ h
    obtain ⟨h1, h2⟩ := click_ok_props env b cmd.selector o ho
    cases he
    exact ⟨h1, h2, rfl, rfl⟩
  case input =>
    obtain ⟨o, ho, he⟩ := except_map_ok _ _ _ h
    obtain ⟨h1, h2⟩ := input_ok_props env b cmd.selector cmd.text o ho
    cases he
    exact ⟨h1, h2, rfl, rfl⟩
  case extract =>
    obtain ⟨o, ho, he⟩ := except_map_ok _ _ _ h
    obtain ⟨h1, h2⟩ := extractContent_ok_props env b cmd.selector o ho
    cases he
    exact ⟨h1, h2, rfl, rfl⟩
  case scroll =>
    obtain ⟨o, ho, he⟩ := except_map_ok _ _ _ h
    obtain ⟨h1, h2⟩ := scroll_ok_props env b cmd.scrollOptions o ho
    cases he
    exact ⟨h1, h2, rfl, rfl⟩
  case screenshot =>
    obtain ⟨o, ho, he⟩ := except_map_ok _ _ _ h
    obtain ⟨h1, h2⟩ := takeScreenshot_ok_props env b o ho
    cases he
    exact ⟨h1, h2, rfl, rfl⟩
  case wait =>
    obtain ⟨o, ho, he⟩ := except_map_ok _ _ _ h
    obtain ⟨h1, h2⟩ :=
      waitForElement_ok_props env b cmd.selector (cmd.timeout.getD 10000) o ho
    cases he
    exact ⟨h1, h2, rfl, rfl⟩
  case stream_start =>
    exact startStreaming_ok_props env b cmd.hasCallback (cmd.frameRate.getD 2)
      obs b' h
  case stream_stop =>
    cases h; exact ⟨rfl, rfl, rfl, rfl⟩
  case get_viewport =>
    obtain ⟨o, ho, he⟩ := except_map_ok _ _ _ h
    obtain ⟨h1, h2⟩ := getViewportInfo_ok_props env b o ho
    cases he
    exact ⟨h1, h2, rfl, rfl⟩

theorem executeCommand_ok (env : Env) (b : Browser) (cmd : HummCommand)
    (hinit : b.isInitialized = true) (hpage : b.page = true) :
    ∃ obs b', executeCommand env b cmd = .ok (obs, b') ∧
      obs.timestamp = env.now ∧ b'.isInitialized = true ∧ b'.page = true ∧
      (obs.success = false → ∃ e, obs.error = some e ∧ 0 < e.length) := by
  rw [executeCommand_initialized env b cmd hinit hpage]
  cases hd : dispatch env b cmd with
  | ok p =>
      obtain ⟨obs, b'⟩ := p
      obtain ⟨hs, ht, hi, hp2⟩ := dispatch_ok_props env b cmd obs b' hd
      exact ⟨obs, b', rfl, ht, by rw [hi, hinit], by rw [hp2, hpage],
        fun hf => absurd hs (by simp [hf])⟩
  | error e =>
      exact ⟨_, b, rfl, rfl, hinit, hpage,
        fun _ => ⟨e, rfl, dispatch_error_pos env b cmd e hd⟩⟩

theorem executeCommand_navigate (env : Env) (b : Browser) (u : String)
    (hinit : b.isInitialized = true) (hpage : b.page = true) :
    executeCommand env b { action := .navigate, url := some u } =
      .ok ((match env.gotoFails with
            | some m =>
                { success := false,
                  error := some ("Navigation failed: " ++ m),
                  timestamp := env.now }
            | none =>
                { success := true, pageTitle := some env.pageTitle,
                  url := some env.pageUrl, data := some .navigated,
                  timestamp := env.now }), b) := by
  rw [executeCommand_initialized _ _ _ hinit hpage]
  unfold dispatch navigate
  rw [hpage]
  cases env.gotoFails <;> rfl

theorem executeCommand_extract_none (env : Env) (b : Browser)
    (hinit : b.isInitialized = true) (hpage : b.page = true) :
    executeCommand env b { action := .extract } =
      .ok ((match env.contentFails with
            | some m =>
                { success := false,
                  error := some ("Content extraction failed: " ++ m),
                  timestamp := env.now }
            | none =>
                { success := true,
                  content := some (pageJson env.extractedTitle
                    env.extractedText env.extractedHtml env.pageUrl),
                  data := some (.extractedPage env.extractedTitle
                    env.extractedText env.extractedHtml env.pageUrl),
                  timestamp := env.now }), b) := by
  rw [executeCommand_initialized _ _ _ hinit hpage]
  unfold dispatch extractContent
  rw [hpage]
  cases env.contentFails <;> rfl

theorem executeCommand_extract_some (env : Env) (b : Browser) (sel : String)
    (hinit : b.isInitialized = true) (hpage : b.page = true) :
    executeCommand env b { action := .extract, selector := some sel } =
      .ok ((if env.elemFound then
              { success := true, content := some env.elemText,
                data := some (.extractedElem env.elemText),
                timestamp := env.now }
            else
              { success := false,
                error := some ("Content extraction failed: Element not found: " ++ sel),
                timestamp := env.now }), b) := by
  rw [executeCommand_initialized _ _ _ hinit hpage]
  unfold dispatch extractContent
  rw [hpage]
  cases env.elemFound <;> rfl

theorem executeCommand_screenshot (env : Env) (b : Browser)
    (hinit : b.isInitialized = true) (hpage : b.page = true) :
    executeCommand env b { action := .screenshot } =
      .ok ((match env.screenshotFails with
            | some m =>
                { success := false,
                  error := some ("Screenshot failed: " ++ m),
                  timestamp := env.now }
            | none =>
                { success := true,
                  screenshot := some ("data:image/png;base64," ++ env.screenshotB64),
                  data := some .screenshotTaken,
                  timestamp := env.now }), b) := by
  rw [executeCommand_initialized _ _ _ hinit hpage]
  unfold dispatch takeScreenshot
  rw [hpage]
  cases env.screenshotFails <;> rfl

theorem executeCommand_get_viewport (env : Env) (b : Browser)
    (hinit : b.isInitialized = true) (hpage : b.page = true) :
    executeCommand env b { action := .get_viewport } =
      .ok ((match env.titleFails with
            | some m =>
                { success := false,
                  error := some ("Failed to get viewport info: " ++ m),
                  timestamp := env.now }
            | none =>
                { success := true, pageTitle := some env.pageTitle,
                  url := some env.pageUrl,
                  viewport := env.viewportSize.map
                    (fun p => { width := p.1, height := p.2, deviceScaleFactor := 1 }),
                  data := some (.viewportInfo env.pageUrl env.pageTitle),
                  timestamp := env.now }), b) := by
  rw [executeCommand_initialized _ _ _ hinit hpage]
  unfold dispatch getViewportInfo
  rw [hpage]
  cases env.titleFails <;> rfl

theorem executeCommand_stream_start (env : Env) (b : Browser) (fr : Nat)
    (hinit : b.isInitialized = true) (hpage : b.page = true) :
    executeCommand env b { action := .stream_start, frameRate := some fr } =
      .ok ({ success := true,
             streamData := some { isStreaming := true, frameRate := fr, quality := 60 },
             data := some .streamingStarted, timestamp := env.now },
           { b with streamCallbackSet := false, isStreaming := true,
                    streamInterval := some b.nextTimer,
                    activeTimers := b.nextTimer :: b.activeTimers,
                    nextTimer := b.nextTimer + 1 }) := by
  rw [executeCommand_initialized _ _ _ hinit hpage]
  unfold dispatch startStreaming
  rw [hpage]
  rfl

theorem executeCommand_stream_stop (env : Env) (b : Browser)
    (hinit : b.isInitialized = true) (hpage : b.page = true) :
    executeCommand env b { action := .stream_stop } =
      .ok (stopStreaming env b) := by
  rw [executeCommand_initialized _ _ _ hinit hpage]
  rfl

/-- C1 (counterexample): `executeCommand` is not total as the claim
states.  With no Session (uninitialized browser) and the administrative
switch set, the implicit lazy initialization throws and the exception
escapes `executeCommand` (the lazy-init call sits before the `try`
block), so no Observation is returned. -/
theorem C1_counterexample :
    executeCommand { baseEnv with automationDisabled := true } ({} : Browser)
        { action := .navigate, url := some "https://example.com" } =
      .error "Browser automation is disabled in production" := by
  rfl

/-- C1 (amended): whenever a Session already exists (the browser is
initialized with a page, so no lazy initialization is attempted),
`executeCommand` returns an Observation for every command and never
raises: every underlying failure is caught and converted to a failed
Observation carrying a non-empty error string and the start timestamp. -/
theorem C1_executeCommand_total_when_session_exists (env : Env) (b : Browser)
    (cmd : HummCommand) (hinit : b.isInitialized = true)
    (hpage : b.page = true) :
    ∃ obs b', executeCommand env b cmd = .ok (obs, b') ∧
      obs.timestamp = env.now ∧
      (obs.success = false → ∃ e, obs.error = some e ∧ 0 < e.length) := by
  obtain ⟨obs, b', h1, h2, _, _, h5⟩ := executeCommand_ok env b cmd hinit hpage
  exact ⟨obs, b', h1, h2, h5⟩

/-- C1 (witness): the amended theorem applied to an initialized browser
and a navigate command in the benign environment. -/
theorem C1_witness :
    ∃ obs b',
      executeCommand baseEnv initBrowser
          { action := .navigate, url := some "https://example.com" } =
        .ok (obs, b') ∧
      obs.timestamp = baseEnv.now ∧
      (obs.success = false → ∃ e, obs.error = some e ∧ 0 < e.length) :=
  C1_executeCommand_total_when_session_exists baseEnv initBrowser
    { action := .navigate, url := some "https://example.com" } rfl rfl

/-- C2 (counterexample): executing StreamStart in a state whose capture
timer 0 is active does not stop it: afterwards both the old timer 0 and
the new timer 1 are registered, so two capture timers run concurrently;
only the new handle is retained in `streamInterval`. -/
theorem C2_counterexample :
    (executeCommand baseEnv c2Browser
        { action := .stream_start, frameRate := some 2 }).toOption.map
      (fun p => (p.2.activeTimers, p.2.streamInterval)) =
      some ([1, 0], some 1) := by
  rfl

/-- C2 (amended): starting a stream while one is already active does not
cancel the previous capture loop; the old timer keeps running alongside
the newly registered one, and only the new handle is retained. -/
theorem C2_startStreaming_keeps_previous_timer (env : Env) (b : Browser)
    (cb : Bool) (fr : Nat) (id : Nat) (hpage : b.page = true)
    (hprev : b.streamInterval = some id) (hmem : id ∈ b.activeTimers)
    (hfresh : id < b.nextTimer) :
    ∃ obs b', startStreaming env b cb fr = .ok (obs, b') ∧
      id ∈ b'.activeTimers ∧ b.nextTimer ∈ b'.activeTimers ∧
      b.nextTimer ≠ id ∧ b'.streamInterval = some b.nextTimer ∧
      b'.isStreaming = true := by
  unfold startStreaming
  rw [hpage]
  refine ⟨_, _, rfl, ?_, ?_, ?_, rfl, rfl⟩
  · exact List.mem_cons_of_mem _ hmem
  · exact List.mem_cons_self _ _
  · omega

/-- C2 (witness): the amended theorem applied to the browser whose
stream timer 0 is active. -/
theorem C2_witness :
    ∃ obs b', startStreaming baseEnv c2Browser false 2 = .ok (obs, b') ∧
      0 ∈ b'.activeTimers ∧ c2Browser.nextTimer ∈ b'.activeTimers ∧
      c2Browser.nextTimer ≠ 0 ∧ b'.streamInterval = some c2Browser.nextTimer ∧
      b'.isStreaming = true :=
  C2_startStreaming_keeps_previous_timer baseEnv c2Browser false 2 0
    rfl rfl (by decide) (by decide)

/-- C7: StreamStop is idempotent: it always returns a successful
Observation reporting `isStreaming=false` (also with no active stream),
a second call does the same, and the second call leaves the browser
state unchanged. -/
theorem C7_stopStreaming_idempotent (env : Env) (b : Browser) :
    (stopStreaming env b).1.success = true ∧
    (stopStreaming env b).1.streamData =
      some { isStreaming := false, frameRate := 0, quality := 0 } ∧
    (stopStreaming env b).2.isStreaming = false ∧
    (stopStreaming env (stopStreaming env b).2).1.success = true ∧
    (stopStreaming env (stopStreaming env b).2).1.streamData =
      some { isStreaming := false, frameRate := 0, quality := 0 } ∧
    (stopStreaming env (stopStreaming env b).2).2 = (stopStreaming env b).2 :=
  ⟨rfl, rfl, rfl, rfl, rfl, rfl⟩

/-- C8: scroll semantics: with a target element the element is scrolled
into view; without one the applied vertical delta is `+pixels` exactly
when the direction is `down` (also the default) and `-pixels` for every
other direction value, with magnitude defaulting to 500. -/
theorem C8_scroll_direction_semantics (env : Env) (b : Browser)
    (opts : ScrollOptions) (hpage : b.page = true)
    (hok : env.scrollFails = none) :
    ∃ obs, scroll env b opts = .ok (scrollAction opts, obs) ∧
      obs.success = true ∧
      (∀ sel, opts.toElement = some sel → scrollAction opts = .intoView sel) ∧
      (opts.toElement = none → opts.direction = some "down" →
          scrollAction opts = .byPixels (opts.pixels.getD 500)) ∧
      (∀ d, opts.toElement = none → opts.direction = some d → d ≠ "down" →
          scrollAction opts = .byPixels (-(opts.pixels.getD 500))) ∧
      (opts.toElement = none → opts.direction = none →
          scrollAction opts = .byPixels (opts.pixels.getD 500)) ∧
      (opts.pixels = none → opts.pixels.getD 500 = 500) := by
  unfold scroll
  rw [hpage, hok]
  refine ⟨_, rfl, rfl, ?_, ?_, ?_, ?_, ?_⟩
  · intro sel hsel; simp [scrollAction, hsel]
  · intro hnone hdir; simp [scrollAction, scrollDelta, hnone, hdir]
  · intro d hnone hdir hne; simp [scrollAction, scrollDelta, hnone, hdir, hne]
  · intro hnone hdir; simp [scrollAction, scrollDelta, hnone, hdir]
  · intro hp; simp [hp]

/-- C8 (witness): the theorem applied to an upward scroll of 100 pixels
on the initialized browser. -/
theorem C8_witness :
    ∃ obs, scroll baseEnv initBrowser
        { direction := some "up", pixels := some 100 } =
      .ok (scrollAction { direction := some "up", pixels := some 100 }, obs) ∧
      obs.success = true ∧
      (∀ sel, (({ direction := some "up", pixels := some 100 } : ScrollOptions)).toElement = some sel →
          scrollAction { direction := some "up", pixels := some 100 } = .intoView sel) ∧
      ((({ direction := some "up", pixels := some 100 } : ScrollOptions)).toElement = none →
          (({ direction := some "up", pixels := some 100 } : ScrollOptions)).direction = some "down" →
          scrollAction { direction := some "up", pixels := some 100 } =
            .byPixels ((({ direction := some "up", pixels := some 100 } : ScrollOptions)).pixels.getD 500)) ∧
      (∀ d, (({ direction := some "up", pixels := some 100 } : ScrollOptions)).toElement = none →
          (({ direction := some "up", pixels := some 100 } : ScrollOptions)).direction = some d → d ≠ "down" →
          scrollAction { direction := some "up", pixels := some 100 } =
            .byPixels (-((({ direction := some "up", pixels := some 100 } : ScrollOptions)).pixels.getD 500))) ∧
      ((({ direction := some "up", pixels := some 100 } : ScrollOptions)).toElement = none →
          (({ direction := some "up", pixels := some 100 } : ScrollOptions)).direction = none →
          scrollAction { direction := some "up", pixels := some 100 } =
            .byPixels ((({ direction := some "up", pixels := some 100 } : ScrollOptions)).pixels.getD 500)) ∧
      ((({ direction := some "up", pixels := some 100 } : ScrollOptions)).pixels = none →
          (({ direction := some "up", pixels := some 100 } : ScrollOptions)).pixels.getD 500 = 500) :=
  C8_scroll_direction_semantics baseEnv initBrowser
    { direction := some "up", pixels := some 100 } rfl rfl

/-- C3: for every task (any type, including the `automation` type that
has no switch case), `executeTask` returns an `AgentResult` (modelled as
a total function: the source catch covers the whole dispatch) with the
task's id and timestamp, and `currentTask` is cleared on every exit
path; for the unknown type the result is a failure with the
unknown-task-type summary, never an escaping exception. -/
theorem C3_executeTask_total_and_clears_currentTask (env : Env)
    (task : AgentTask) (w : World) :
    (executeTask env task w).2.agent.currentTask = none ∧
    (executeTask env task w).1.taskId = task.id ∧
    (executeTask env task w).1.timestamp = env.now ∧
    (executeTask env { task with type := .automation } w).1.success = false ∧
    (executeTask env { task with type := .automation } w).1.summary =
      "Task failed: Unknown task type: automation" ∧
    (executeTask env { task with type := .automation } w).2.agent.currentTask
      = none := by
  refine ⟨?_, ?_, ?_, rfl, rfl, rfl⟩ <;>
    rcases hr : (executeTaskBody env task (taskStartWorld env task w)).result
      with e | d <;>
    simp [executeTask, hr]

/-- C4: a scrape, navigate or monitor task without a target URL yields a
failed `AgentResult` with the missing-parameter message and an empty
observation list; no exception escapes and `currentTask` is cleared. -/
theorem C4_missing_url_fails_cleanly (env : Env) (task : AgentTask)
    (w : World) (hurl : task.targetUrl = none)
    (htype : task.type = .scrape ∨ task.type = .navigation ∨
      task.type = .monitor) :
    (executeTask env task w).1.success = false ∧
    (executeTask env task w).1.observations = [] ∧
    (task.type = .scrape → (executeTask env task w).1.summary =
        "Task failed: Target URL required for scraping task") ∧
    (task.type = .navigation → (executeTask env task w).1.summary =
        "Task failed: Target URL required for navigation task") ∧
    (task.type = .monitor → (executeTask env task w).1.summary =
        "Task failed: Target URL required for monitoring task") ∧
    (executeTask env task w).2.agent.currentTask = none := by
  rcases htype with h | h | h <;>
    refine ⟨?_, ?_, ?_, ?_, ?_, ?_⟩ <;>
      simp [executeTask, executeTaskBody, performScraping, performNavigation,
        performMonitoring, taskStartWorld, h, hurl]

/-- C4 (witness): the theorem applied to a scrape task with no target
URL in the benign environment. -/
theorem C4_witness :
    (executeTask baseEnv c4Task baseWorld).1.success = false ∧
    (executeTask baseEnv c4Task baseWorld).1.observations = [] ∧
    (c4Task.type = .scrape → (executeTask baseEnv c4Task baseWorld).1.summary =
        "Task failed: Target URL required for scraping task") ∧
    (c4Task.type = .navigation → (executeTask baseEnv c4Task baseWorld).1.summary =
        "Task failed: Target URL required for navigation task") ∧
    (c4Task.type = .monitor → (executeTask baseEnv c4Task baseWorld).1.summary =
        "Task failed: Target URL required for monitoring task") ∧
    (executeTask baseEnv c4Task baseWorld).2.agent.currentTask = none :=
  C4_missing_url_fails_cleanly baseEnv c4Task baseWorld rfl (Or.inl rfl)

/-- C5: when the gateway's analysis answer fails to parse as the
expected JSON shape, `performImageGeneration` does not fail at the
parsing step: it builds the image request from the fallback default spec
(raw user query, creative type, professional style, 1024 by 1024, step
count 20 instead of 25), records the analysis observation as successful,
and the task outcome then depends only on the image gateway. -/
theorem C5_image_parse_fallback (env : Env) (task : AgentTask) (w : World)
    (g : GenResponse) (hg : env.gateway (imageAnalysisPrompt task) = .ok g)
    (hp : env.parseImageAnalysis g.text = none) :
    buildImageRequest (env.parseImageAnalysis g.text) task =
      { prompt := task.userQuery, type := "creative", style := "professional",
        dimensions := { width := 1024, height := 1024 }, hasData := false,
        steps := 20, guidance := 7.5 } ∧
    (performImageGeneration env task w).observations.head? =
      some { success := true,
             data := some (.aiAnalysisStep g.text (buildImageRequest none task)),
             timestamp := env.now } ∧
    (performImageGeneration env task w).observations.length = 2 ∧
    ((env.imageGen (buildImageRequest none task)).success = true →
        ∃ d, (performImageGeneration env task w).result = .ok d) := by
  refine ⟨by rw [hp]; rfl, ?_, ?_, ?_⟩
  · simp only [performImageGeneration, hg, hp]
    split <;> rfl
  · simp only [performImageGeneration, hg, hp]
    split <;> rfl
  · intro hs
    simp [performImageGeneration, hg, hp, hs]

/-- C5 (witness): the theorem applied to the environment whose gateway
returns a non-JSON analysis, with a successful image gateway. -/
theorem C5_witness :
    buildImageRequest
        (c5Env.parseImageAnalysis
          (GenResponse.mk "not json" 50).text) c5Task =
      { prompt := c5Task.userQuery, type := "creative", style := "professional",
        dimensions := { width := 1024, height := 1024 }, hasData := false,
        steps := 20, guidance := 7.5 } ∧
    (performImageGeneration c5Env c5Task baseWorld).observations.head? =
      some { success := true,
             data := some (.aiAnalysisStep (GenResponse.mk "not json" 50).text
               (buildImageRequest none c5Task)),
             timestamp := c5Env.now } ∧
    (performImageGeneration c5Env c5Task baseWorld).observations.length = 2 ∧
    ((c5Env.imageGen (buildImageRequest none c5Task)).success = true →
        ∃ d, (performImageGeneration c5Env c5Task baseWorld).result = .ok d) :=
  C5_image_parse_fallback c5Env c5Task baseWorld
    (GenResponse.mk "not json" 50) rfl rfl

/-- C9 (counterexample): the substituted template is not the string the
claim quotes: for a task described "demo" the source produces
"Task completed: demo. Check the detailed results for more
information.", not "Task completed: demo. Check detailed results." -/
theorem C9_counterexample :
    generateTaskSummary c9FailEnv c9Task []
        (.scrapeFull "https://example.com" none) =
      "Task completed: demo. Check the detailed results for more information." ∧
    generateTaskSummary c9FailEnv c9Task []
        (.scrapeFull "https://example.com" none) ≠
      "Task completed: demo. Check detailed results." :=
  ⟨rfl, by decide⟩

/-- C9 (amended): the orchestrator attempts a gateway summary of the
successful-observation subset plus the result (the prompt depends only
on that subset); if the gateway call fails it substitutes the
deterministic template "Task completed: <description>. Check the
detailed results for more information.", and a summarization failure
never fails the overall task: a successful handler still yields
success=true. -/
theorem C9_summary_fallback_template (env : Env) (task : AgentTask)
    (w : World) (obs : List HummObservation) (res : ResultData) (e : String)
    (hfail : env.gateway (summaryPrompt task obs res) = .error e) :
    generateTaskSummary env task obs res =
      "Task completed: " ++ task.description ++
        ". Check the detailed results for more information." ∧
    summaryPrompt task obs res =
      summaryPrompt task (obs.filter (fun o => o.success)) res ∧
    (∀ d, (executeTaskBody env task (taskStartWorld env task w)).result = .ok d →
        (executeTask env task w).1.success = true) := by
  refine ⟨?_, ?_, ?_⟩
  · unfold generateTaskSummary
    rw [hfail]
  · unfold summaryPrompt observationSummary
    rw [List.filter_filter]
    simp
  · intro d hd
    simp [executeTask, hd]

/-- C9 (witness): the amended theorem applied to the failing gateway
with a research task described "demo" and an empty observation list. -/
theorem C9_witness :
    generateTaskSummary c9FailEnv c9Task []
        (.scrapeFull "https://example.com" none) =
      "Task completed: " ++ c9Task.description ++
        ". Check the detailed results for more information." ∧
    summaryPrompt c9Task [] (.scrapeFull "https://example.com" none) =
      summaryPrompt c9Task (List.filter (fun o => o.success) [])
        (.scrapeFull "https://example.com" none) ∧
    (∀ d, (executeTaskBody c9FailEnv c9Task
          (taskStartWorld c9FailEnv c9Task baseWorld)).result = .ok d →
        (executeTask c9FailEnv c9Task baseWorld).1.success = true) :=
  C9_summary_fallback_template c9FailEnv c9Task baseWorld []
    (.scrapeFull "https://example.com" none) "provider down" rfl

/-- C10 (implicit): a scrape task with a target URL yields success=true
for every environment, regardless of the navigate and extract
observations failing — the handler never inspects observation.success —
while the research handler fails the task when navigation fails. -/
theorem C10_scrape_ignores_observation_failures (env : Env)
    (task : AgentTask) (w : World) (u m c : String)
    (htype : task.type = .scrape) (hurl : task.targetUrl = some u)
    (hinit : w.browser.isInitialized = true) (hpage : w.browser.page = true) :
    (executeTask env task w).1.success = true ∧
    (env.gotoFails = some m → env.contentFails = some c →
        task.selector = none →
        (executeTask env task w).1.observations.map (fun o => o.success) =
          [false, false]) ∧
    (env.gotoFails = some m →
        (executeTask env { task with type := .research } w).1.success = false) := by
  refine ⟨?_, ?_, ?_⟩
  · have hscr : ∃ d,
        (performScraping env task (taskStartWorld env task w)).result = .ok d := by
      cases hsel : task.selector with
      | some sel =>
          simp [performScraping, hurl, hsel, taskStartWorld,
            executeCommand_navigate env w.browser u hinit hpage,
            executeCommand_extract_some env w.browser sel hinit hpage]
      | none =>
          simp [performScraping, hurl, hsel, taskStartWorld,
            executeCommand_navigate env w.browser u hinit hpage,
            executeCommand_extract_none env w.browser hinit hpage]
    obtain ⟨d, hd⟩ := hscr
    have hbody : (executeTaskBody env task (taskStartWorld env task w)).result
        = .ok d := by
      simpa [executeTaskBody, htype] using hd
    simp [executeTask, hbody]
  · intro hg hc hsel
    simp [executeTask, executeTaskBody, htype, performScraping, hurl, hsel,
      taskStartWorld,
      executeCommand_navigate env w.browser u hinit hpage,
      executeCommand_extract_none env w.browser hinit hpage, hg, hc]
  · intro hg
    simp [executeTask, executeTaskBody, performResearch, hurl, taskStartWorld,
      executeCommand_navigate env w.browser u hinit hpage, hg]

/-- C10 (witness): the theorem applied to a scrape task whose navigate
and extract steps both fail: the scrape result is still success=true
with two failed observations, while the research variant fails. -/
theorem C10_witness :
    (executeTask c10FailEnv c10Task baseWorld).1.success = true ∧
    (c10FailEnv.gotoFails = some "net::ERR_FAILED" →
        c10FailEnv.contentFails = some "page closed" →
        c10Task.selector = none →
        (executeTask c10FailEnv c10Task baseWorld).1.observations.map
          (fun o => o.success) = [false, false]) ∧
    (c10FailEnv.gotoFails = some "net::ERR_FAILED" →
        (executeTask c10FailEnv { c10Task with type := .research }
          baseWorld).1.success = false) :=
  C10_scrape_ignores_observation_failures c10FailEnv c10Task baseWorld
    "https://example.com" "net::ERR_FAILED" "page closed" rfl rfl rfl rfl

theorem liveDemoFail_props (env : Env) (obs : List HummObservation)
    (w : World) (e : String) (hinit : w.browser.isInitialized = true)
    (hpage : w.browser.page = true)
    (hinv : w.browser.isStreaming = true → w.agent.isLiveStreaming = true) :
    (liveDemoFail env obs w e).result = .error e ∧
    (liveDemoFail env obs w e).world.agent.isLiveStreaming = false ∧
    (liveDemoFail env obs w e).world.browser.isStreaming = false := by
  unfold liveDemoFail
  split
  next hls =>
    rw [executeCommand_stream_stop env w.browser hinit hpage]
    exact ⟨rfl, rfl, rfl⟩
  next hls =>
    refine ⟨rfl, ?_, ?_⟩
    · cases hbsc : w.agent.isLiveStreaming
      · rfl
      · exact absurd hbsc hls
    · cases hbsc : w.browser.isStreaming
      · rfl
      · exact absurd (hinv hbsc) hls

/-- C6 (counterexample): a live_demo with live view enabled whose
viewport step fails (third observation has success=false) does not stop
the stream and does not propagate any error: the handler returns a
successful result while `isLiveStreaming` and the browser stream stay
active, contradicting the claim that any failing step of the sequence
leads to a stream stop and a propagated task-level error. -/
theorem C6_counterexample :
    (performLiveDemo c6Env c6Task baseWorld).result.toOption.isSome = true ∧
    (performLiveDemo c6Env c6Task baseWorld).world.agent.isLiveStreaming = true ∧
    (performLiveDemo c6Env c6Task baseWorld).world.browser.isStreaming = true ∧
    (performLiveDemo c6Env c6Task baseWorld).observations.map
      (fun o => o.success) = [true, true, false, true] :=
  ⟨rfl, rfl, rfl, rfl⟩

/-- C6 (amended): only failures that make the live_demo handler raise
(a navigation failure, given an initialized Session with a target URL)
stop the stream: whenever `performLiveDemo` exits with an error, the
orchestrator's `isLiveStreaming` is false and the browser stream is
stopped before the error propagates.  Failing viewport or screenshot
observations do not raise, do not stop the stream, and leave the task
successful. -/
theorem C6_liveDemo_error_implies_stream_stopped (env : Env)
    (task : AgentTask) (w : World) (u e : String)
    (hurl : task.targetUrl = some u)
    (hinit : w.browser.isInitialized = true) (hpage : w.browser.page = true)
    (hinv : w.browser.isStreaming = true → w.agent.isLiveStreaming = true)
    (herr : (performLiveDemo env task w).result = .error e) :
    (performLiveDemo env task w).world.agent.isLiveStreaming = false ∧
    (performLiveDemo env task w).world.browser.isStreaming = false := by
  cases hel : task.enableLiveView with
  | true =>
      cases hg : env.gotoFails with
      | none =>
          exact absurd herr (by
            simp [performLiveDemo, Except.map, hurl, hel, hg, hinit, hpage,
              executeCommand_stream_start, executeCommand_navigate,
              executeCommand_get_viewport, executeCommand_screenshot])
      | some m =>
          refine ⟨?_, ?_⟩ <;>
            simp [performLiveDemo, Except.map, hurl, hel, hg, hinit, hpage,
              executeCommand_stream_start, executeCommand_navigate,
              executeCommand_stream_stop, liveDemoFail, stopStreaming]
  | false =>
      cases hg : env.gotoFails with
      | none =>
          exact absurd herr (by
            simp [performLiveDemo, Except.map, hurl, hel, hg, hinit, hpage,
              executeCommand_navigate, executeCommand_get_viewport,
              executeCommand_screenshot])
      | some m =>
          cases hls : w.agent.isLiveStreaming with
          | false =>
              have hbs : w.browser.isStreaming = false := by
                cases hbs2 : w.browser.isStreaming
                · rfl
                · exact absurd (hinv hbs2) (by simp [hls])
              refine ⟨?_, ?_⟩ <;>
                simp [performLiveDemo, Except.map, hurl, hel, hg, hinit, hpage,
                  executeCommand_navigate, liveDemoFail, hls, hbs]
          | true =>
              refine ⟨?_, ?_⟩ <;>
                simp [performLiveDemo, Except.map, hurl, hel, hg, hinit, hpage,
                  executeCommand_navigate, executeCommand_stream_stop,
                  liveDemoFail, hls, stopStreaming]

/-- C6 (witness): the amended theorem applied to a live demo with live
view enabled whose navigation fails: the stream is stopped and the flag
cleared before the error is returned. -/
theorem C6_witness :
    (performLiveDemo navFailEnv c6Task baseWorld).world.agent.isLiveStreaming
      = false ∧
    (performLiveDemo navFailEnv c6Task baseWorld).world.browser.isStreaming
      = false :=
  C6_liveDemo_error_implies_stream_stopped navFailEnv c6Task baseWorld
    "https://example.com" "Failed to navigate to https://example.com"
    rfl rfl rfl (by decide) rfl
